import Mathlib

/-!
# Pi-Patrol: verification of the capture/recognition/distribution pipeline

Shallow embedding of the Pi-Patrol security node (`pi_patrol.py`,
`web_server.py`) and proofs about its specified behaviour: the LBPH
recognizer's thresholding and label mapping, the capture path's error
containment, the enroll endpoint, the idle-timeout camera state machine,
the event store, and the MJPEG stream gate.

Machine integers and floats of the source are modelled as `ℕ` and `ℚ`;
fallible calls are modelled with `Option`/`Except`; external library
primitives (OpenCV, SQLite) that the source calls are modelled from the
spec and marked as such in their doc comments.
-/

namespace PiPatrol

/-! ## Configuration (`pi_patrol.py`, class `Config`) -/

/-- `Config.CONFIDENCE_THRESHOLD = 70` (pi_patrol.py:44). -/
def CONFIDENCE_THRESHOLD : ℚ := 70

/-- `Config.IDLE_TIMEOUT = 10` seconds (pi_patrol.py:45). -/
def IDLE_TIMEOUT : ℚ := 10

/-- Width component of `Config.FACE_SIZE = (200, 200)` (pi_patrol.py:43). -/
def FACE_W : ℕ := 200

/-- Height component of `Config.FACE_SIZE = (200, 200)` (pi_patrol.py:43). -/
def FACE_H : ℕ := 200

/-! ## Images and the preprocessing pipeline (`LBPHRecognizer`) -/

/-- A grayscale image: width, height, and an 8-bit pixel value per
coordinate (x = column, y = row). -/
structure GrayImage where
  w : ℕ
  h : ℕ
  pix : ℕ → ℕ → ℕ

/-- A colour image in OpenCV BGR channel order: the pixel is `(b, g, r)`. -/
structure ColorImage where
  w : ℕ
  h : ℕ
  pix : ℕ → ℕ → ℕ × ℕ × ℕ

/-- Modelled from the spec: `cv2.cvtColor(img, cv2.COLOR_BGR2GRAY)`
(pi_patrol.py:96, 135), the grayscale conversion step, using OpenCV's
fixed-point weights `(R*4899 + G*9617 + B*1868 + 8192) >> 14`. -/
def cvtColorBGR2GRAY (img : ColorImage) : GrayImage where
  w := img.w
  h := img.h
  pix := fun x y =>
    let c := img.pix x y
    (1868 * c.1 + 9617 * c.2.1 + 4899 * c.2.2 + 8192) / 16384

/-- Side length of a CLAHE tile for `tileGridSize=(8, 8)`: the image
extent split into 8 tiles, rounding up. -/
def tileDim (len : ℕ) : ℕ := (len + 7) / 8

/-- The coordinates of the CLAHE tile containing pixel `(x, y)`. -/
def tileCoords (img : GrayImage) (x y : ℕ) : List (ℕ × ℕ) :=
  let tw := tileDim img.w
  let th := tileDim img.h
  let x0 := x / tw * tw
  let y0 := y / th * th
  (List.range tw).flatMap fun i =>
    (List.range th).filterMap fun j =>
      if x0 + i < img.w ∧ y0 + j < img.h then some (x0 + i, y0 + j) else none

/-- Modelled from the spec: `cv2.createCLAHE(clipLimit=2.0,
tileGridSize=(8, 8)).apply` (pi_patrol.py:97-98, 136), the local
contrast-equalization step. Modelled as per-tile histogram equalization
over an 8×8 tile grid: a pixel's output value is determined by the
histogram of the tile that contains it (`255 * cdf(v) / tileArea`). The
property the development turns on is the locality — the output at a pixel
depends on the surrounding tile of the image CLAHE was applied to. -/
def claheApply (img : GrayImage) : GrayImage where
  w := img.w
  h := img.h
  pix := fun x y =>
    let tile := tileCoords img x y
    let area := tile.length
    let cnt := (tile.filter fun p => img.pix p.1 p.2 ≤ img.pix x y).length
    if area = 0 then img.pix x y else cnt * 255 / area

/-- NumPy slicing `gray[y:y+h, x:x+w]` (pi_patrol.py:144): crop a `w × h`
region whose top-left corner is `(x, y)`. -/
def cropGray (img : GrayImage) (x y w h : ℕ) : GrayImage where
  w := w
  h := h
  pix := fun i j => img.pix (x + i) (y + j)

/-- Cropping the same region out of the original colour frame. -/
def cropColor (img : ColorImage) (x y w h : ℕ) : ColorImage where
  w := w
  h := h
  pix := fun i j => img.pix (x + i) (y + j)

/-- Modelled from the spec: `cv2.resize(img, Config.FACE_SIZE)`
(pi_patrol.py:99, 145), resampling to the canonical face size; modelled
with nearest-neighbour sampling. -/
def resize (img : GrayImage) (dw dh : ℕ) : GrayImage where
  w := dw
  h := dh
  pix := fun i j => img.pix (i * img.w / dw) (j * img.h / dh)

/-- `LBPHRecognizer.preprocess_face` (pi_patrol.py:94-99): grayscale,
then CLAHE, then resize to `Config.FACE_SIZE`. -/
def preprocess_face (img : ColorImage) : GrayImage :=
  resize (claheApply (cvtColorBGR2GRAY img)) FACE_W FACE_H

/-- The full-frame grayscale + CLAHE image computed at the top of
`recognize_faces` (pi_patrol.py:135-136). -/
def detectGray (frame : ColorImage) : GrayImage :=
  claheApply (cvtColorBGR2GRAY frame)

/-- The pixels fed to `recognizer.predict` for the face region
`(x, y, w, h)` at detect time (pi_patrol.py:144-145): the region is
cropped out of the CLAHE-processed full frame, then resized. -/
def detectROI (frame : ColorImage) (x y w h : ℕ) : GrayImage :=
  resize (cropGray (detectGray frame) x y w h) FACE_W FACE_H

/-- Extensional equality of images on their common domain. -/
def GrayImage.eqOn (a b : GrayImage) : Prop :=
  a.w = b.w ∧ a.h = b.h ∧ ∀ i j, i < a.w → j < a.h → a.pix i j = b.pix i j

/-- A concrete 16×16 frame: pixel `(0, 0)` is black, all others white. -/
def c3frame : ColorImage where
  w := 16
  h := 16
  pix := fun x y => if x = 0 ∧ y = 0 then (0, 0, 0) else (255, 255, 255)

/-! ## Face recognition (`LBPHRecognizer.recognize_faces`, pi_patrol.py:133-156)

The Haar cascade (`detectMultiScale`) and the trained LBPH classifier
(`recognizer.predict`) are external OpenCV state; they enter the model as
parameters: a detector returning the face boxes found in the processed
grayscale frame, and a predictor that either returns `(label_id, conf)`
or raises. -/

/-- A face bounding box `(x, y, w, h)` as returned by `detectMultiScale`. -/
abbrev Box := ℕ × ℕ × ℕ × ℕ

/-- Outcome of `recognizer.predict(roi)`: a `(label_id, confidence)` pair,
or an exception (caught by the `except` clause at pi_patrol.py:152). -/
inductive PredictResult where
  | ok (label_id : ℕ) (conf : ℚ)
  | exn
deriving DecidableEq

/-- One entry of the result list of `recognize_faces`:
`(name, conf, (x, y, w, h))` (pi_patrol.py:155). -/
structure Detection where
  name : String
  conf : ℚ
  box : Box
deriving DecidableEq

/-- `self.labels.get(label_id, "Unknown")` (pi_patrol.py:149): look the
predicted id up in the label mapping, defaulting to `"Unknown"`. -/
def lookupLabel (labels : List (ℕ × String)) (label_id : ℕ) : String :=
  match labels.lookup label_id with
  | some name => name
  | none => "Unknown"

/-- The pixels fed to `recognizer.predict` for box `b` of frame `frame`:
crop the box out of the CLAHE-processed grayscale frame, then resize
(pi_patrol.py:144-145). -/
def roiOf (frame : ColorImage) (b : Box) : GrayImage :=
  resize (cropGray (detectGray frame) b.1 b.2.1 b.2.2.1 b.2.2.2) FACE_W FACE_H

/-- The result entry `recognize_faces` appends for one detected box
(pi_patrol.py:143-155). -/
def recognizeOne (labels : List (ℕ × String)) (predict : GrayImage → PredictResult)
    (frame : ColorImage) (b : Box) : Detection :=
  match predict (roiOf frame b) with
  | .ok label_id conf =>
      if conf < CONFIDENCE_THRESHOLD then
        { name := lookupLabel labels label_id, conf := conf, box := b }
      else
        { name := "Unknown", conf := conf, box := b }
  | .exn => { name := "Unknown", conf := 100, box := b }

/-- `LBPHRecognizer.recognize_faces` (pi_patrol.py:133-156): CLAHE the
grayscale frame, run the cascade, and fold over the detected boxes
appending one result per box. -/
def recognize_faces (labels : List (ℕ × String)) (face_cascade : GrayImage → List Box)
    (predict : GrayImage → PredictResult) (frame : ColorImage) : List Detection :=
  let faces := face_cascade (detectGray frame)
  faces.foldl (fun results b => results ++ [recognizeOne labels predict frame b]) []

/-! ## Label mappings (`train` and `_load_labels`, pi_patrol.py:90-131)

A directory listing is a list of `(name, is_dir)` entries in the order
`Path.iterdir` yields them. -/

/-- The label mapping built by `LBPHRecognizer.train`
(pi_patrol.py:107-124): walk the corpus listing, skip non-directories
with `continue` (which also skips the `label_id += 1`), and assign
consecutive ids `0, 1, 2, ...` to the directories. -/
def trainLabels (entries : List (String × Bool)) : List (ℕ × String) :=
  (entries.foldl
    (fun st e => if e.2 then (st.1 + 1, st.2 ++ [(st.1, e.1)]) else st)
    ((0 : ℕ), ([] : List (ℕ × String)))).2

/-- The label mapping rebuilt by `LBPHRecognizer._load_labels`
(pi_patrol.py:90-92): `{i: folder.name for i, folder in
enumerate(self.faces_dir.iterdir()) if folder.is_dir()}` — the index `i`
counts every entry of the listing, and non-directories are filtered out
only after enumeration. -/
def loadLabels (entries : List (String × Bool)) : List (ℕ × String) :=
  entries.enum.filterMap fun p => if p.2.2 then some (p.1, p.2.1) else none

/-- An unchanged corpus tree as `iterdir` can enumerate it after a
`train()` call saved `model.yml` into the faces directory
(pi_patrol.py:80, 128): two person directories with the persisted model
file listed between them. -/
def corpusWithModelFile : List (String × Bool) :=
  [("alice", true), ("model.yml", false), ("bob", true)]

/-! ## Frames and the capture path (`PiPatrol.capture_frame`, pi_patrol.py:215-239) -/

/-- A camera frame: either a raw capture (identified by a token) or a
frame annotated with the boxes/labels drawn by `capture_frame`
(pi_patrol.py:225-229, `cv2.rectangle`/`cv2.putText`). -/
inductive Frame where
  | raw (token : ℕ)
  | annotated (base : Frame) (dets : List Detection)
deriving DecidableEq

/-- The fallible calls made inside `capture_frame`'s `try` block
(pi_patrol.py:220-235), each modelled as an `Except` whose error case is
the call raising. -/
structure CaptureEnv where
  /-- `self.camera.capture_array()` followed by `cv2.cvtColor` (device error). -/
  capture_array : Except String Frame
  /-- `self.recognizer.recognize_faces(frame)` (detector exception). -/
  detect : Frame → Except String (List Detection)
  /-- `EVENTS_DIR.mkdir(exist_ok=True)` (filesystem error). -/
  mkdirEvents : Except String Unit
  /-- `cv2.imwrite(live.jpg, ...)` (file-write error). -/
  imwriteLive : Frame → Except String Unit
  /-- `set_frame(frame)` (publish error, e.g. `imencode` raising). -/
  publishFrame : Frame → Except String Unit

/-- The body of `capture_frame`'s `try` block (pi_patrol.py:220-235):
capture, detect, annotate, write the live preview, publish to the broker,
and return the annotated frame; the first raising call aborts the rest. -/
def captureBody (env : CaptureEnv) : Except String Frame := do
  let rawFrame ← env.capture_array
  let dets ← env.detect rawFrame
  let frame := Frame.annotated rawFrame dets
  let _ ← env.mkdirEvents
  let _ ← env.imwriteLive frame
  let _ ← env.publishFrame frame
  pure frame

/-- `PiPatrol.capture_frame` (pi_patrol.py:215-239): return `None` when
the camera is unset; otherwise run the body and let the
`except Exception` clause turn any raised error into `None`. -/
def capture_frame (camera : Option ℕ) (env : CaptureEnv) : Option Frame :=
  match camera with
  | none => none
  | some _ =>
    match captureBody env with
    | .ok f => some f
    | .error _ => none

/-! ## The motion loop (`PiPatrol.run`, pi_patrol.py:278-310) -/

/-- The mutable state the loop body touches: the camera handle
(`self.camera`, `None` when powered off) and `self.last_motion_time`. -/
structure LoopState where
  camera : Option ℕ
  last_motion_time : ℚ
deriving DecidableEq

/-- `PiPatrol.wake_camera` (pi_patrol.py:209-213): a no-op when the
camera is already active, otherwise the result of `initialize_camera`
(which leaves the handle `None` on failure, pi_patrol.py:194-196). -/
def wake_camera (camera : Option ℕ) (initResult : Option ℕ) : Option ℕ :=
  match camera with
  | some c => some c
  | none => initResult

/-- One iteration of the `while True` loop of `PiPatrol.run`
(pi_patrol.py:284-310), returning the next state and the event types
logged this tick. On motion: refresh `last_motion_time`, wake the camera,
capture; a `None` frame skips the event/recording block. On no motion:
power the camera off when it has been active past `IDLE_TIMEOUT`
(pi_patrol.py:305-308, with `stop_camera` setting the handle to `None`,
pi_patrol.py:198-207). -/
def runTick (s : LoopState) (motion : Bool) (now : ℚ) (initResult : Option ℕ)
    (env : CaptureEnv) : LoopState × List String :=
  if motion then
    let cam := wake_camera s.camera initResult
    match capture_frame cam env with
    | some _ => ({ camera := cam, last_motion_time := now }, ["motion_detected"])
    | none => ({ camera := cam, last_motion_time := now }, [])
  else
    if s.camera.isSome ∧ now - s.last_motion_time > IDLE_TIMEOUT then
      ({ camera := none, last_motion_time := s.last_motion_time }, [])
    else
      (s, [])

/-! ## The frame broker (`web_server.py`, globals + `set_frame`) -/

/-- The module-level broker state of `web_server.py` (lines 32-39). -/
structure WebState where
  current_frame : Option Frame
  encoded_jpeg : Option String
  current_label : String
  last_frame_time : ℚ
  live_preview_enabled : Bool
deriving DecidableEq

/-- The default of `set_frame`'s `label` parameter (web_server.py:44). -/
def set_frame_default_label : String := "Unknown"

/-- `set_frame(frame, label)` (web_server.py:44-54): store the frame and
label; re-encode, and update the encoded buffer and `last_frame_time`
only when `cv2.imencode` succeeds (`encode` models `imencode`). -/
def set_frame (s : WebState) (frame : Frame) (label : String)
    (encode : Frame → Option String) (now : ℚ) : WebState :=
  let s1 := { s with current_frame := some frame, current_label := label }
  match encode frame with
  | some buf => { s1 with encoded_jpeg := some buf, last_frame_time := now }
  | none => s1

/-- The broker update performed by the capture path: `set_frame(frame)`
(pi_patrol.py:234) — the `label` argument is omitted, so the default
`"Unknown"` is used, whatever detections were drawn into `frame`. -/
def capturePublish (s : WebState) (frame : Frame) (encode : Frame → Option String)
    (now : ℚ) : WebState :=
  set_frame s frame set_frame_default_label encode now

/-- The JSON body returned by `/api/status` (web_server.py:144-151). -/
structure StatusResponse where
  current_label : String
  live_preview : Bool
  last_frame_time : ℚ
deriving DecidableEq

/-- The `/api/status` handler (web_server.py:144-151). -/
def statusHandler (s : WebState) : StatusResponse where
  current_label := s.current_label
  live_preview := s.live_preview_enabled
  last_frame_time := s.last_frame_time

/-! ## Enrollment (`/api/enroll`, web_server.py:105-130) -/

/-- The corpus directory as the enroll handler sees it: whether
`FACES_DIR` exists, and the files in it (filename and contents). -/
structure CorpusFS where
  facesDirExists : Bool
  files : List (String × Frame)
deriving DecidableEq

/-- The HTTP outcomes of the enroll handler (web_server.py:110-130). -/
inductive EnrollResponse where
  /-- 400 `{"error": "Missing name"}`. -/
  | missingName
  /-- 500 `{"error": "No live frame available"}`. -/
  | noLiveFrame
  /-- 500 `{"error": "cv2.imwrite failed"}`. -/
  | writeFailed
  /-- 200 `{"success": true, "filename": filename}`. -/
  | success (filename : String)
deriving DecidableEq

/-- Writing a file: replace the contents when the name already exists,
otherwise append a new file. -/
def writeFile (files : List (String × Frame)) (name : String) (f : Frame) :
    List (String × Frame) :=
  if files.any (fun p => p.1 = name) then
    files.map fun p => if p.1 = name then (name, f) else p
  else
    files ++ [(name, f)]

/-- The inputs of one POST to `/api/enroll`: the submitted form name
(`None` when missing), the formatted `datetime.now()` timestamp, and
whether `cv2.imwrite` succeeds. -/
structure EnrollRequest where
  name : Option String
  timestamp : String
  imwriteOk : Bool

/-- `enroll_face` (web_server.py:105-130): reject an absent or empty name
before touching the filesystem; then create `FACES_DIR`, pick the
broker's current frame or fall back to the saved `live.jpg`, fail when
neither exists, and write the frame as `f"{name}{timestamp}.jpg"`. -/
def enroll_face (req : EnrollRequest) (broker_frame : Option Frame)
    (livejpg : Option Frame) (fs : CorpusFS) : EnrollResponse × CorpusFS :=
  match req.name with
  | none => (.missingName, fs)
  | some name =>
    if name = "" then (.missingName, fs)
    else
      let fs1 := { fs with facesDirExists := true }
      let frame_to_save :=
        match broker_frame with
        | some f => some f
        | none => livejpg
      match frame_to_save with
      | none => (.noLiveFrame, fs1)
      | some f =>
        let filename := name ++ req.timestamp ++ ".jpg"
        if req.imwriteOk then
          (.success filename, { fs1 with files := writeFile fs1.files filename f })
        else
          (.writeFailed, fs1)

/-- How many files of `fs2` are new relative to `fs1` (names not present
before). -/
def newFileCount (fs1 fs2 : CorpusFS) : ℕ :=
  (fs2.files.filter fun p => ! fs1.files.any fun q => q.1 = p.1).length

/-- A same-second repeat enrollment: the corpus already holds the file a
previous `enroll("alice")` wrote at the same formatted timestamp. -/
def c6fs : CorpusFS where
  facesDirExists := true
  files := [("alice20250101120000.jpg", Frame.raw 0)]

/-- The repeated request: same name, same second. -/
def c6req : EnrollRequest where
  name := some "alice"
  timestamp := "20250101120000"
  imwriteOk := true

/-! ## The event store (`init_database` + `log_event`)

Modelled from the spec: the SQLite table `events` with
`id INTEGER PRIMARY KEY AUTOINCREMENT` (pi_patrol.py:49-61) — the engine
assigns each inserted row an id one larger than the largest ever used, so
ids are never reused. The store carries that counter explicitly. -/

/-- One row of the `events` table minus its id (pi_patrol.py:53-59). -/
structure EventRow where
  timestamp : String
  event_type : String
  file_path : Option String
  person_name : Option String
deriving DecidableEq

/-- The `events` table: the rows with their ids, plus the AUTOINCREMENT
counter (strictly larger than every id ever assigned). -/
structure EventStore where
  nextId : ℕ
  rows : List (ℕ × EventRow)

/-- The AUTOINCREMENT invariant: every stored id is below the counter. -/
def StoreInv (s : EventStore) : Prop :=
  ∀ p ∈ s.rows, p.1 < s.nextId

/-- Inserting a row assigns the counter as its id and bumps the counter. -/
def insertEvent (s : EventStore) (e : EventRow) : ℕ × EventStore :=
  (s.nextId, { nextId := s.nextId + 1, rows := s.rows ++ [(s.nextId, e)] })

/-- `PiPatrol.log_event` (pi_patrol.py:251-261): insert one row with the
formatted current time and the given fields. -/
def log_event (s : EventStore) (now : String) (event_type : String)
    (file_path : Option String) (person : Option String) : ℕ × EventStore :=
  insertEvent s
    { timestamp := now, event_type := event_type, file_path := file_path,
      person_name := person }

/-- Reading an event back by id (`SELECT ... WHERE id = ?`). -/
def getEvent (s : EventStore) (id : ℕ) : Option EventRow :=
  s.rows.lookup id

/-! ## The MJPEG stream (`generate_stream`, web_server.py:57-80) -/

/-- `stream_fps = 15` (web_server.py:39), giving
`frame_interval = 1 / stream_fps` (web_server.py:61). -/
def stream_fps : ℚ := 15

/-- `frame_interval = 1 / stream_fps` (web_server.py:61). -/
def frame_interval : ℚ := 1 / stream_fps

/-- The multipart boundary and headers prepended to each emitted JPEG
(web_server.py:77). -/
def mjpegHeader : String := "--frame\r\nContent-Type: image/jpeg\r\n\r\n"

/-- One iteration of the `while True` loop of `generate_stream`
(web_server.py:63-80), given the values the globals read as this
iteration: yield nothing while the preview flag is off; respect the rate
cap; yield nothing when the encoded buffer is `None` or empty (Python's
`if frame:`); otherwise yield the wrapped JPEG and remember the send
time. Returns the bytes yielded (if any) and the new `last_sent_time`. -/
def generate_stream_step (enabled : Bool) (now : ℚ) (encoded : Option String)
    (last_sent : ℚ) : Option String × ℚ :=
  if ¬ enabled then (none, last_sent)
  else if now - last_sent < frame_interval then (none, last_sent)
  else
    match encoded with
    | some buf =>
        if buf = "" then (none, last_sent)
        else (some (mjpegHeader ++ buf ++ "\r\n"), now)
    | none => (none, last_sent)

/-- Running the generator over a trace of iterations — each a reading of
`(live_preview_enabled, time.time(), encoded_jpeg)` — collecting every
chunk yielded. -/
def generate_stream_run : List (Bool × ℚ × Option String) → ℚ → List String
  | [], _ => []
  | (enabled, now, enc) :: rest, last_sent =>
    match generate_stream_step enabled now enc last_sent with
    | (some out, ls) => out :: generate_stream_run rest ls
    | (none, ls) => generate_stream_run rest ls

/-! ## Concrete instances used by witnesses -/

/-- A capture environment whose very first call (`capture_array`) raises
a device error; the later stages would succeed. -/
def failEnv : CaptureEnv where
  capture_array := Except.error "device"
  detect := fun _ => Except.ok []
  mkdirEvents := Except.ok ()
  imwriteLive := fun _ => Except.ok ()
  publishFrame := fun _ => Except.ok ()

/-- A freshly initialised event store (empty table, counter at 1 as
SQLite AUTOINCREMENT starts). -/
def emptyStore : EventStore where
  nextId := 1
  rows := []

/-- The detection produced for a below-threshold prediction of a mapped
label in the witness scenario. -/
def c1det : Detection where
  name := "alice"
  conf := 50
  box := (3, 4, 5, 6)

end PiPatrol

namespace PiPatrol

/-! ## Helper lemmas -/

/-- Folding append-of-singleton over a list is `map`. -/
theorem foldl_append_singleton {α β : Type} (f : α → β) :
    ∀ (l : List α) (acc : List β),
      l.foldl (fun r b => r ++ [f b]) acc = acc ++ l.map f := by
  intro l
  induction l with
  | nil => intro acc; simp
  | cons b t ih => intro acc; simp [ih]

/-- `recognize_faces` produces exactly the per-box entries of the
detected boxes, in order. -/
theorem recognize_faces_eq_map (labels : List (ℕ × String))
    (face_cascade : GrayImage → List Box) (predict : GrayImage → PredictResult)
    (frame : ColorImage) :
    recognize_faces labels face_cascade predict frame
      = (face_cascade (detectGray frame)).map (recognizeOne labels predict frame) := by
  unfold recognize_faces
  simpa using
    foldl_append_singleton (recognizeOne labels predict frame)
      (face_cascade (detectGray frame)) []

/-- A stored pair makes `any`-by-name true. -/
theorem any_name_of_mem (files : List (String × Frame)) (p : String × Frame)
    (hp : p ∈ files) : (files.any fun q => q.1 = p.1) = true := by
  simp only [List.any_eq_true, decide_eq_true_eq]
  exact ⟨p, hp, rfl⟩

/-- Appending a file with a fresh name adds exactly one new file. -/
theorem newFileCount_fresh (fs : CorpusFS) (name : String) (f : Frame)
    (h : (fs.files.any fun q => q.1 = name) = false) :
    newFileCount fs { facesDirExists := true, files := writeFile fs.files name f } = 1 := by
  unfold newFileCount writeFile
  rw [if_neg (by simp [h])]
  rw [List.filter_append]
  have hold : (fs.files.filter fun p => ! fs.files.any fun q => q.1 = p.1) = [] := by
    rw [List.filter_eq_nil_iff]
    intro p hp
    simp [any_name_of_mem fs.files p hp]
  rw [hold]
  simp [h]

/-- Writing a file whose name already exists adds no new file. -/
theorem newFileCount_overwrite (fs : CorpusFS) (name : String) (f : Frame)
    (h : (fs.files.any fun q => q.1 = name) = true) :
    newFileCount fs { facesDirExists := true, files := writeFile fs.files name f } = 0 := by
  unfold newFileCount writeFile
  rw [if_pos (by simp [h])]
  have hnil : ((fs.files.map fun p => if p.1 = name then (name, f) else p).filter
      fun p => ! fs.files.any fun q => q.1 = p.1) = [] := by
    rw [List.filter_eq_nil_iff]
    intro p hp
    obtain ⟨q, hq, hqe⟩ := List.mem_map.mp hp
    by_cases hc : q.1 = name
    · rw [if_pos hc] at hqe
      subst hqe
      simp [h]
    · rw [if_neg hc] at hqe
      subst hqe
      simp [any_name_of_mem fs.files q hq]
  rw [hnil]
  rfl

/-- Appending a row with a key no stored row uses finds that row by
lookup. -/
theorem lookup_append_fresh {β : Type} (l : List (ℕ × β)) (k : ℕ) (v : β)
    (h : ∀ p ∈ l, p.1 ≠ k) : ((l ++ [(k, v)]).lookup k) = some v := by
  induction l with
  | nil => simp [List.lookup]
  | cons p t ih =>
    obtain ⟨pk, pv⟩ := p
    have hpk : pk ≠ k := by
      have := h (pk, pv) (List.mem_cons_self _ _)
      simpa using this
    have : (k == pk) = false := by
      simp [hpk]
      exact fun hk => absurd hk.symm hpk
    simp only [List.cons_append, List.lookup, this]
    exact ih fun q hq => h q (List.mem_cons_of_mem _ hq)

end PiPatrol

namespace PiPatrol

/-- `recognizeOne` on a below-threshold prediction. -/
theorem recognizeOne_ok_lt (labels : List (ℕ × String))
    (predict : GrayImage → PredictResult) (frame : ColorImage) (b : Box)
    (label_id : ℕ) (conf : ℚ)
    (hp : predict (roiOf frame b) = PredictResult.ok label_id conf)
    (hc : conf < CONFIDENCE_THRESHOLD) :
    recognizeOne labels predict frame b
      = { name := lookupLabel labels label_id, conf := conf, box := b } := by
  simp [recognizeOne, hp, if_pos hc]

/-- `recognizeOne` on an at-or-above-threshold prediction. -/
theorem recognizeOne_ok_ge (labels : List (ℕ × String))
    (predict : GrayImage → PredictResult) (frame : ColorImage) (b : Box)
    (label_id : ℕ) (conf : ℚ)
    (hp : predict (roiOf frame b) = PredictResult.ok label_id conf)
    (hc : ¬ conf < CONFIDENCE_THRESHOLD) :
    recognizeOne labels predict frame b
      = { name := "Unknown", conf := conf, box := b } := by
  simp [recognizeOne, hp, if_neg hc]

/-- `recognizeOne` on a raising prediction. -/
theorem recognizeOne_exn (labels : List (ℕ × String))
    (predict : GrayImage → PredictResult) (frame : ColorImage) (b : Box)
    (hp : predict (roiOf frame b) = PredictResult.exn) :
    recognizeOne labels predict frame b
      = { name := "Unknown", conf := 100, box := b } := by
  simp [recognizeOne, hp]

/-! ## Claim theorems -/

/-- C1 (corrected): thresholding in `recognize_faces`. At or above
`CONFIDENCE_THRESHOLD` the reported label is always `"Unknown"`; but
strictly below the threshold the reported label is the mapping's entry
for the predicted id with default `"Unknown"` — it is NOT guaranteed to
differ from `"Unknown"`, since the predicted id may be absent from the
mapping (see the counterexample). -/
theorem C1_threshold_labeling (labels : List (ℕ × String))
    (face_cascade : GrayImage → List Box) (predict : GrayImage → PredictResult)
    (frame : ColorImage) (d : Detection)
    (hd : d ∈ recognize_faces labels face_cascade predict frame) :
    (CONFIDENCE_THRESHOLD ≤ d.conf → d.name = "Unknown") ∧
    (d.conf < CONFIDENCE_THRESHOLD →
      ∃ label_id, predict (roiOf frame d.box) = PredictResult.ok label_id d.conf ∧
        d.name = lookupLabel labels label_id) := by
  rw [recognize_faces_eq_map] at hd
  obtain ⟨b, _, rfl⟩ := List.mem_map.mp hd
  cases hp : predict (roiOf frame b) with
  | ok label_id conf =>
    by_cases hc : conf < CONFIDENCE_THRESHOLD
    · rw [recognizeOne_ok_lt labels predict frame b label_id conf hp hc]
      exact ⟨fun hge => absurd hc (not_lt.mpr hge), fun _ => ⟨label_id, hp, rfl⟩⟩
    · rw [recognizeOne_ok_ge labels predict frame b label_id conf hp hc]
      exact ⟨fun _ => rfl, fun hlt => absurd hlt hc⟩
  | exn =>
    rw [recognizeOne_exn labels predict frame b hp]
    refine ⟨fun _ => rfl, fun hlt => absurd hlt ?_⟩
    simp only [not_lt]
    unfold CONFIDENCE_THRESHOLD
    norm_num

/-- C1 witness: with the mapping `{0: "alice"}` and a prediction
`(0, 50)`, the detection is labelled `"alice"`, and the theorem's two
implications hold at it. -/
theorem C1_threshold_labeling_witness :
    c1det ∈ recognize_faces [(0, "alice")] (fun _ => [(3, 4, 5, 6)])
        (fun _ => PredictResult.ok 0 50) c3frame ∧
    ((CONFIDENCE_THRESHOLD ≤ c1det.conf → c1det.name = "Unknown") ∧
     (c1det.conf < CONFIDENCE_THRESHOLD →
       ∃ label_id, (fun _ => PredictResult.ok 0 50) (roiOf c3frame c1det.box)
           = PredictResult.ok label_id c1det.conf ∧
         c1det.name = lookupLabel [(0, "alice")] label_id)) :=
  ⟨by decide,
   C1_threshold_labeling [(0, "alice")] (fun _ => [(3, 4, 5, 6)])
     (fun _ => PredictResult.ok 0 50) c3frame c1det (by decide)⟩

/-- C1 counterexample: with the label mapping `{0: "alice", 2: "bob"}`
(exactly what `_load_labels` rebuilds for `corpusWithModelFile`) and the
classifier predicting id 1 at confidence 50 — strictly below the
threshold 70 — `recognize_faces` reports the label `"Unknown"`, refuting
"confidence < threshold implies label is not Unknown". -/
theorem C1_below_threshold_unknown_counterexample :
    recognize_faces [(0, "alice"), (2, "bob")] (fun _ => [(0, 0, 8, 8)])
        (fun _ => PredictResult.ok 1 50) c3frame
      = [{ name := "Unknown", conf := 50, box := (0, 0, 8, 8) }] ∧
    (50 : ℚ) < CONFIDENCE_THRESHOLD := by
  constructor
  · decide
  · decide

/-- C2 (code bug): for an unchanged corpus whose `iterdir` enumeration
lists the persisted `model.yml` between the two person directories,
`train` builds `{0: "alice", 1: "bob"}` but `_load_labels` rebuilds
`{0: "alice", 2: "bob"}` — the mappings differ, because `_load_labels`
numbers every directory entry (filtering non-directories only after
`enumerate`) while `train` numbers the directories alone. -/
theorem C2_load_labels_diverges_from_train :
    trainLabels corpusWithModelFile = [(0, "alice"), (1, "bob")] ∧
    loadLabels corpusWithModelFile = [(0, "alice"), (2, "bob")] ∧
    loadLabels corpusWithModelFile ≠ trainLabels corpusWithModelFile := by
  refine ⟨by decide, by decide, by decide⟩

/-- C3 (code bug): the pixels fed to `predict` at detect time are NOT the
train-time preprocessing of the same region. On the concrete 16×16 frame
`c3frame` with region `(0, 0, 8, 8)`, the detect path (CLAHE over the
full frame, then crop, then resize) yields 63 at pixel `(0, 0)` while
`preprocess_face` applied to the cropped region (crop, then CLAHE, then
resize) yields 255 — CLAHE is local to its input image, so applying it
before versus after cropping differs. -/
theorem C3_detect_train_preprocessing_mismatch :
    (detectROI c3frame 0 0 8 8).pix 0 0 = 63 ∧
    (preprocess_face (cropColor c3frame 0 0 8 8)).pix 0 0 = 255 ∧
    ¬ GrayImage.eqOn (detectROI c3frame 0 0 8 8)
        (preprocess_face (cropColor c3frame 0 0 8 8)) := by
  refine ⟨by decide, by decide, fun h => ?_⟩
  have h00 := h.2.2 0 0 (by decide) (by decide)
  revert h00
  decide

end PiPatrol

namespace PiPatrol

/-- C4 (confirmed): failures in the capture path are contained. When the
camera is unset, `capture_frame` returns `None`; when any call of the
`try` body raises, `capture_frame` returns `None`; and a motion-loop tick
whose capture returns `None` still completes normally — it updates
`last_motion_time`, keeps the woken camera, logs no event, and hands the
loop its next state instead of terminating. -/
theorem C4_capture_failure_contained (camera : Option ℕ) (env : CaptureEnv)
    (s : LoopState) (now : ℚ) (initResult : Option ℕ) :
    (camera = none → capture_frame camera env = none) ∧
    (∀ e, captureBody env = Except.error e → capture_frame camera env = none) ∧
    (capture_frame (wake_camera s.camera initResult) env = none →
      runTick s true now initResult env
        = ({ camera := wake_camera s.camera initResult, last_motion_time := now }, [])) := by
  refine ⟨fun h => by rw [h]; rfl, fun e he => ?_, fun h => ?_⟩
  · cases camera with
    | none => rfl
    | some c => simp [capture_frame, he]
  · simp [runTick, h]

/-- C4 witness: with a raising `capture_array`, `capture_frame` is `None`
both without and with a camera handle, and the motion tick completes with
no event. -/
theorem C4_capture_failure_contained_witness :
    capture_frame none failEnv = none ∧
    capture_frame (some 0) failEnv = none ∧
    runTick { camera := none, last_motion_time := 0 } true 5 none failEnv
      = ({ camera := none, last_motion_time := 5 }, []) :=
  ⟨(C4_capture_failure_contained none failEnv ⟨none, 0⟩ 5 none).1 rfl,
   (C4_capture_failure_contained (some 0) failEnv ⟨none, 0⟩ 5 none).2.1 "device" rfl,
   (C4_capture_failure_contained (some 0) failEnv ⟨none, 0⟩ 5 none).2.2 rfl⟩

/-- C5 (confirmed): the capture pipeline publishes with `set_frame(frame)`
— no label argument — so after any capture-path publish the broker's
`current_label` is the default `"Unknown"`, and `/api/status` reports
`current_label = "Unknown"`, whatever frame (and drawn detections) was
published. -/
theorem C5_capture_path_label_always_unknown (s : WebState) (frame : Frame)
    (encode : Frame → Option String) (now : ℚ) :
    (capturePublish s frame encode now).current_label = "Unknown" ∧
    (statusHandler (capturePublish s frame encode now)).current_label = "Unknown" := by
  unfold capturePublish set_frame statusHandler set_frame_default_label
  cases encode frame <;> exact ⟨rfl, rfl⟩

/-- C6 (corrected): the enroll handler. A missing or empty name fails
with the missing-name error without touching the corpus (no file and no
directory created). Otherwise, with the broker's frame or the live
snapshot as fallback, a successful write stores the frame under
`name ++ timestamp ++ ".jpg"` and reports success with that filename —
this is one NEW file only when no file of that name existed; an
enrollment repeating a name within the same formatted second OVERWRITES
the existing file and adds no new file. A failed write reports the
storage error with the corpus files unchanged, and with no frame
available anywhere the handler fails with the no-frame error. -/
theorem C6_enroll_behaviour (req : EnrollRequest) (broker_frame livejpg : Option Frame)
    (fs : CorpusFS) :
    ((req.name = none ∨ req.name = some "") →
      enroll_face req broker_frame livejpg fs = (EnrollResponse.missingName, fs)) ∧
    (∀ name, req.name = some name → ¬ name = "" →
      ∀ f, (broker_frame = some f ∨ (broker_frame = none ∧ livejpg = some f)) →
        (req.imwriteOk = true →
          enroll_face req broker_frame livejpg fs
            = (EnrollResponse.success (name ++ req.timestamp ++ ".jpg"),
               { facesDirExists := true,
                 files := writeFile fs.files (name ++ req.timestamp ++ ".jpg") f }) ∧
          ((fs.files.any fun q => q.1 = name ++ req.timestamp ++ ".jpg") = false →
            newFileCount fs (enroll_face req broker_frame livejpg fs).2 = 1) ∧
          ((fs.files.any fun q => q.1 = name ++ req.timestamp ++ ".jpg") = true →
            newFileCount fs (enroll_face req broker_frame livejpg fs).2 = 0)) ∧
        (req.imwriteOk = false →
          enroll_face req broker_frame livejpg fs
            = (EnrollResponse.writeFailed,
               { facesDirExists := true, files := fs.files }))) ∧
    (∀ name, req.name = some name → ¬ name = "" → broker_frame = none → livejpg = none →
      enroll_face req broker_frame livejpg fs
        = (EnrollResponse.noLiveFrame,
           { facesDirExists := true, files := fs.files })) := by
  obtain ⟨rname, rts, rwok⟩ := req
  refine ⟨?_, ?_, ?_⟩
  · rintro (h | h) <;> simp only at h <;> subst h <;> simp [enroll_face]
  · rintro name rfl hne f hf
    have hsome : ∀ hw : rwok = true,
        enroll_face ⟨some name, rts, rwok⟩ broker_frame livejpg fs
          = (EnrollResponse.success (name ++ rts ++ ".jpg"),
             { facesDirExists := true,
               files := writeFile fs.files (name ++ rts ++ ".jpg") f }) := by
      intro hw
      rcases hf with h | ⟨h1, h2⟩
      · simp [enroll_face, h, hne, hw]
      · simp [enroll_face, h1, h2, hne, hw]
    refine ⟨fun hw => ⟨hsome hw, fun hfresh => ?_, fun hdup => ?_⟩, fun hw => ?_⟩
    · rw [hsome hw]
      exact newFileCount_fresh fs (name ++ rts ++ ".jpg") f hfresh
    · rw [hsome hw]
      exact newFileCount_overwrite fs (name ++ rts ++ ".jpg") f hdup
    · simp only at hw
      rcases hf with h | ⟨h1, h2⟩
      · simp [enroll_face, h, hne, hw]
      · simp [enroll_face, h1, h2, hne, hw]
  · rintro name rfl hne h1 h2
    simp [enroll_face, h1, h2, hne]

/-- C6 witness: a fresh-timestamp enrollment succeeds with the generated
filename and adds exactly one new file; a same-second repetition and the
empty name are exercised by the counterexample and the main theorem. -/
theorem C6_enroll_behaviour_witness :
    enroll_face { name := some "alice", timestamp := "20250101120001", imwriteOk := true }
        (some (Frame.raw 1)) none c6fs
      = (EnrollResponse.success "alice20250101120001.jpg",
         { facesDirExists := true,
           files := writeFile c6fs.files "alice20250101120001.jpg" (Frame.raw 1) }) ∧
    newFileCount c6fs
        (enroll_face { name := some "alice", timestamp := "20250101120001", imwriteOk := true }
          (some (Frame.raw 1)) none c6fs).2 = 1 ∧
    enroll_face { name := some "", timestamp := "20250101120001", imwriteOk := true }
        (some (Frame.raw 1)) none c6fs
      = (EnrollResponse.missingName, c6fs) := by
  have h := (C6_enroll_behaviour
    { name := some "alice", timestamp := "20250101120001", imwriteOk := true }
    (some (Frame.raw 1)) none c6fs).2.1 "alice" rfl (by decide) (Frame.raw 1)
    (Or.inl rfl) |>.1 rfl
  refine ⟨h.1, h.2.1 (by decide), ?_⟩
  exact (C6_enroll_behaviour
    { name := some "", timestamp := "20250101120001", imwriteOk := true }
    (some (Frame.raw 1)) none c6fs).1 (Or.inr rfl)

/-- C6 counterexample: repeating `enroll("alice")` within the same
formatted second — the corpus already holds
`alice20250101120000.jpg` — succeeds but creates ZERO new files (the
existing file is overwritten), refuting "writes exactly one new file
under a collision-safe name". -/
theorem C6_same_second_enroll_counterexample :
    (enroll_face c6req (some (Frame.raw 1)) none c6fs).1
      = EnrollResponse.success "alice20250101120000.jpg" ∧
    newFileCount c6fs (enroll_face c6req (some (Frame.raw 1)) none c6fs).2 = 0 := by
  constructor
  · decide
  · decide

/-- C7 (confirmed): the idle-timeout transition of the motion loop's
no-motion branch. With the camera active and more than `IDLE_TIMEOUT`
elapsed since the last motion, the tick powers the camera off (handle set
to `None`, `last_motion_time` kept) and logs nothing — and the very next
no-motion tick leaves that powered-off state unchanged, so the transition
happens exactly once. With the camera inactive, or the timeout not
exceeded, the state is unchanged. -/
theorem C7_idle_timeout_poweroff (s : LoopState) (now now2 : ℚ)
    (initResult : Option ℕ) (env : CaptureEnv) :
    (s.camera ≠ none → now - s.last_motion_time > IDLE_TIMEOUT →
      runTick s false now initResult env
        = ({ camera := none, last_motion_time := s.last_motion_time }, []) ∧
      runTick { camera := none, last_motion_time := s.last_motion_time }
          false now2 initResult env
        = ({ camera := none, last_motion_time := s.last_motion_time }, [])) ∧
    (s.camera = none → runTick s false now initResult env = (s, [])) ∧
    (¬ now - s.last_motion_time > IDLE_TIMEOUT →
      runTick s false now initResult env = (s, [])) := by
  refine ⟨fun hcam htime => ⟨?_, ?_⟩, fun hcam => ?_, fun htime => ?_⟩
  · have hsome : s.camera.isSome = true := Option.ne_none_iff_isSome.mp hcam
    simp [runTick, hsome, htime]
  · simp [runTick]
  · simp [runTick, hcam]
  · simp [runTick, htime]

/-- C7 witness: an active camera 11 seconds past the last motion (timeout
10) is powered off by one no-motion tick, and a further no-motion tick a
second later changes nothing. -/
theorem C7_idle_timeout_poweroff_witness :
    runTick { camera := some 7, last_motion_time := 0 } false 11 none failEnv
      = ({ camera := none, last_motion_time := 0 }, []) ∧
    runTick { camera := none, last_motion_time := 0 } false 12 none failEnv
      = ({ camera := none, last_motion_time := 0 }, []) :=
  (C7_idle_timeout_poweroff ⟨some 7, 0⟩ 11 12 none failEnv).1
    (by decide) (by norm_num [IDLE_TIMEOUT])

end PiPatrol

namespace PiPatrol

/-- C8 (confirmed): event ids and read-back. Starting from any store
satisfying the AUTOINCREMENT invariant, two successive `log_event` calls
receive strictly increasing ids, the id assigned to the first insert is
used by no pre-existing row (never reused), the invariant is preserved,
and reading the inserted id back returns exactly the timestamp,
event type, file path, and person name that were written. -/
theorem C8_event_ids_and_readback (s : EventStore) (hinv : StoreInv s)
    (ts1 et1 : String) (fp1 pn1 : Option String)
    (ts2 et2 : String) (fp2 pn2 : Option String) :
    (log_event s ts1 et1 fp1 pn1).1
      < (log_event (log_event s ts1 et1 fp1 pn1).2 ts2 et2 fp2 pn2).1 ∧
    (∀ p ∈ s.rows, p.1 ≠ (log_event s ts1 et1 fp1 pn1).1) ∧
    StoreInv (log_event s ts1 et1 fp1 pn1).2 ∧
    getEvent (log_event s ts1 et1 fp1 pn1).2 (log_event s ts1 et1 fp1 pn1).1
      = some { timestamp := ts1, event_type := et1, file_path := fp1,
               person_name := pn1 } := by
  refine ⟨?_, ?_, ?_, ?_⟩
  · simp [log_event, insertEvent]
  · intro p hp
    exact Nat.ne_of_lt (hinv p hp)
  · intro p hp
    simp only [log_event, insertEvent, List.mem_append, List.mem_singleton] at hp
    rcases hp with hp | hp
    · exact Nat.lt_succ_of_lt (hinv p hp)
    · subst hp
      exact Nat.lt_succ_self _
  · unfold getEvent log_event insertEvent
    exact lookup_append_fresh s.rows s.nextId _ fun p hp => Nat.ne_of_lt (hinv p hp)

/-- C8 witness: two inserts into a fresh store get ids 1 and 2, reuse
nothing, and the first row reads back exactly as written. -/
theorem C8_event_ids_and_readback_witness :
    (log_event emptyStore "2025-01-01 12:00:00" "motion_detected"
        (some "/e/alice_1.jpg") (some "alice")).1
      < (log_event (log_event emptyStore "2025-01-01 12:00:00" "motion_detected"
            (some "/e/alice_1.jpg") (some "alice")).2
          "2025-01-01 12:00:06" "motion_recorded" (some "/r/record_1.mp4") none).1 ∧
    (∀ p ∈ emptyStore.rows,
      p.1 ≠ (log_event emptyStore "2025-01-01 12:00:00" "motion_detected"
        (some "/e/alice_1.jpg") (some "alice")).1) ∧
    StoreInv (log_event emptyStore "2025-01-01 12:00:00" "motion_detected"
        (some "/e/alice_1.jpg") (some "alice")).2 ∧
    getEvent (log_event emptyStore "2025-01-01 12:00:00" "motion_detected"
          (some "/e/alice_1.jpg") (some "alice")).2
        (log_event emptyStore "2025-01-01 12:00:00" "motion_detected"
          (some "/e/alice_1.jpg") (some "alice")).1
      = some { timestamp := "2025-01-01 12:00:00", event_type := "motion_detected",
               file_path := some "/e/alice_1.jpg", person_name := some "alice" } :=
  C8_event_ids_and_readback emptyStore (by simp [StoreInv, emptyStore])
    "2025-01-01 12:00:00" "motion_detected" (some "/e/alice_1.jpg") (some "alice")
    "2025-01-01 12:00:06" "motion_recorded" (some "/r/record_1.mp4") none

/-- C9 (confirmed): the MJPEG generator yields nothing in any iteration
that reads the preview flag as disabled, and a whole run of iterations
all reading the flag as disabled emits zero frames. -/
theorem C9_no_output_while_disabled (now last_sent : ℚ) (encoded : Option String)
    (trace : List (Bool × ℚ × Option String)) (ls0 : ℚ)
    (hoff : ∀ t ∈ trace, t.1 = false) :
    generate_stream_step false now encoded last_sent = (none, last_sent) ∧
    generate_stream_run trace ls0 = [] := by
  constructor
  · simp [generate_stream_step]
  · induction trace generalizing ls0 with
    | nil => rfl
    | cons t rest ih =>
      obtain ⟨b, tn, te⟩ := t
      have hb : b = false := hoff (b, tn, te) (List.mem_cons_self _ _)
      subst hb
      have hstep : generate_stream_step false tn te ls0 = (none, ls0) := by
        simp [generate_stream_step]
      simp only [generate_stream_run, hstep]
      exact ih ls0 fun q hq => hoff q (List.mem_cons_of_mem _ hq)

/-- C9 witness: with preview disabled, one iteration yields nothing even
with a fresh encoded frame and an elapsed rate window, and a two-tick
disabled trace yields zero frames. -/
theorem C9_no_output_while_disabled_witness :
    generate_stream_step false 3 (some "jpegbytes") 0 = (none, 0) ∧
    generate_stream_run [(false, 1, some "jpegbytes"), (false, 2, none)] 0 = [] :=
  C9_no_output_while_disabled 3 0 (some "jpegbytes")
    [(false, 1, some "jpegbytes"), (false, 2, none)] 0 (by decide)

/-- C10 (confirmed): `recognize_faces` is total over the detected
regions: the result is exactly one entry per detected box, in order, and
any box whose `predict` call raises is still reported, with label
`"Unknown"` and confidence 100. -/
theorem C10_recognize_faces_total (labels : List (ℕ × String))
    (face_cascade : GrayImage → List Box) (predict : GrayImage → PredictResult)
    (frame : ColorImage) :
    recognize_faces labels face_cascade predict frame
      = (face_cascade (detectGray frame)).map (recognizeOne labels predict frame) ∧
    (recognize_faces labels face_cascade predict frame).length
      = (face_cascade (detectGray frame)).length ∧
    ∀ b : Box, predict (roiOf frame b) = PredictResult.exn →
      recognizeOne labels predict frame b
        = { name := "Unknown", conf := 100, box := b } := by
  refine ⟨recognize_faces_eq_map labels face_cascade predict frame, ?_, ?_⟩
  · rw [recognize_faces_eq_map, List.length_map]
  · exact fun b hb => recognizeOne_exn labels predict frame b hb

/-- C10 witness: a region whose prediction raises is reported as
`("Unknown", 100.0, box)`. -/
theorem C10_recognize_faces_total_witness :
    recognizeOne [] (fun _ => PredictResult.exn) c3frame (1, 2, 3, 4)
      = { name := "Unknown", conf := 100, box := (1, 2, 3, 4) } :=
  (C10_recognize_faces_total [] (fun _ => [(1, 2, 3, 4)])
    (fun _ => PredictResult.exn) c3frame).2.2 (1, 2, 3, 4) rfl

end PiPatrol
